import Mathlib

/-
  Verification of the USB-to-I2C bridge module `I2cFunctions.c` of the
  iSensor FX3 firmware, against its natural-language specification.

  The C module is embedded shallowly:
  - the global 4096-byte `USBBuffer` is modelled as a function `Nat → Nat`
    giving the byte stored at each offset;
  - external collaborators (the USB control endpoint read, the Cypress I2C
    transaction calls, `CyU3PI2cInit`, `CyU3PI2cSetConfig`) are modelled as
    oracle parameters supplying their return statuses; each handler records
    the calls it issues (bus transactions, DMA staging, error logging) in
    its result structure so that "no bus call is made" and "logs the error"
    are statable;
  - C machine integers are modelled as `Nat` with the same bit operations
    the source performs (`|||`, `<<<`); the byte-assembly expressions never
    overflow 32 bits for byte-valued inputs, so no masking is needed;
  - the local variable `index` in `ParseUSBBuffer` is uninitialized in the
    source when the preamble length is zero (the loop that assigns it never
    runs); the model makes this explicit by threading the arbitrary initial
    value `indexInit` through the parse.
-/

namespace I2cFunctions

/-- The Cypress success status `CY_U3P_SUCCESS` (numerically 0). -/
def CY_U3P_SUCCESS : Nat := 0

/-- Capacity of the global control-transfer buffer, `extern uint8_t USBBuffer[4096]`. -/
def USB_BUFFER_CAPACITY : Nat := 4096

/-- Capacity of the global bulk staging buffer, `extern uint8_t BulkBuffer[12288]`. -/
def BULK_BUFFER_CAPACITY : Nat := 12288

/-- Modelled from the spec: the fixed capacity of the preamble `addressBytes`
buffer. The struct `CyU3PI2cPreamble_t` comes from the Cypress SDK headers,
which are not part of this repository; its `buffer` member is a fixed
8-byte array, matching the spec's "length: u8 (0..=max, e.g. ≤7)". -/
def PREAMBLE_CAPACITY : Nat := 8

/-- Model of `CyU3PI2cPreamble_t` as filled in by `ParseUSBBuffer`.
`buffer` records the sequence of bytes the source copies into the fixed
8-byte `preamble->buffer` array; a list longer than `PREAMBLE_CAPACITY`
represents an out-of-bounds overflow of that array. -/
structure CyU3PI2cPreamble where
  length : Nat
  ctrlMask : Nat
  buffer : List Nat
deriving DecidableEq, Repr

/-- The outputs of `ParseUSBBuffer`: the values stored through the
`timeout` and `numBytes` out-parameters, the filled preamble, and the
returned index (the offset of the first inline write-data byte). -/
structure ParseResult where
  timeout : Nat
  numBytes : Nat
  preamble : CyU3PI2cPreamble
  index : Nat
deriving DecidableEq, Repr

/-- The little-endian 32-bit assembly the source performs at a given offset:
`b[off] | (b[off+1] << 8) | (b[off+2] << 16) | (b[off+3] << 24)`. -/
def le32at (usb : Nat → Nat) (off : Nat) : Nat :=
  usb off ||| (usb (off + 1) <<< 8) ||| (usb (off + 2) <<< 16) ||| (usb (off + 3) <<< 24)

/-- The evolution of the local variable `index` across the address-copy loop
`for(i = 0; i < length; i++) { index = 11 + i; ... }`: each iteration
overwrites `index` with `11 + i`; when the loop body never runs the variable
keeps its (uninitialized) initial value. -/
def loopFinalIndex (plen indexInit : Nat) : Nat :=
  (List.range plen).foldl (fun _ i => 11 + i) indexInit

/-- Embedding of `ParseUSBBuffer` (I2cFunctions.c lines 121-150).
Reads `numBytes` from bytes 0..3, `timeout` from bytes 4..7, the preamble
length from byte 8, the control mask from bytes 9..10, then copies `length`
address bytes starting at offset 11, and returns the post-loop `index`
incremented by one. `indexInit` is the arbitrary value the uninitialized
local `index` holds before the loop. -/
def ParseUSBBuffer (usb : Nat → Nat) (indexInit : Nat) : ParseResult :=
  let numBytes := le32at usb 0
  let timeout := le32at usb 4
  let plen := usb 8
  let ctrlMask := usb 9 ||| (usb 10 <<< 8)
  let buf := (List.range plen).map (fun i => usb (11 + i))
  let index := loopFinalIndex plen indexInit
  { timeout := timeout, numBytes := numBytes,
    preamble := { length := plen, ctrlMask := ctrlMask, buffer := buf },
    index := index + 1 }

/-- Result of `AdiI2CReadHandler`. `busCall` records the arguments of the
`CyU3PI2cReceiveBytes` transaction if one was issued (preamble, byte count,
retry count); `staged` records the `ManualDMABuffer` handed to
`CyU3PDmaChannelSetupSendBuffer` if staging happened, as
(offset of `buffer` into `BulkBuffer`, `size`, `count`). -/
structure ReadResult where
  status : Nat
  busCall : Option (CyU3PI2cPreamble × Nat × Nat)
  staged : Option (Nat × Nat × Nat)
deriving DecidableEq, Repr

/-- Embedding of `AdiI2CReadHandler` (I2cFunctions.c lines 27-55).
`ep0Status` is the status returned by `CyU3PUsbGetEP0Data`; `usb` is the
content of `USBBuffer` after that call (bytes beyond the received request
keep their previous, stale values); `indexInit` is the garbage initial value
of the parser's uninitialized local; `retry` is `FX3State.I2CRetryCount`;
`busRead` is the status oracle for `CyU3PI2cReceiveBytes`, a function of
exactly the arguments the source passes it. -/
def AdiI2CReadHandler (ep0Status : Nat) (usb : Nat → Nat) (indexInit retry : Nat)
    (busRead : CyU3PI2cPreamble → Nat → Nat → Nat) : ReadResult :=
  if ep0Status ≠ CY_U3P_SUCCESS then
    { status := ep0Status, busCall := none, staged := none }
  else
    let p := ParseUSBBuffer usb indexInit
    let st := busRead p.preamble p.numBytes retry
    if st ≠ CY_U3P_SUCCESS then
      { status := st, busCall := some (p.preamble, p.numBytes, retry), staged := none }
    else
      { status := st, busCall := some (p.preamble, p.numBytes, retry),
        staged := some (0, 4096, p.numBytes) }

/-- Result of `AdiI2CWriteHandler`. `busCall` records the
`CyU3PI2cTransmitBytes` transaction if one was issued: the preamble, the
offset `index` of the data pointer into `USBBuffer`, the bytes the bus
driver reads from that pointer, the byte count, and the retry count.
`logged` records an `AdiLogError(I2cFunctions_c, __LINE__, status)` call as
(source line, error code). -/
structure WriteResult where
  status : Nat
  busCall : Option (CyU3PI2cPreamble × Nat × List Nat × Nat × Nat)
  logged : Option (Nat × Nat)
deriving DecidableEq, Repr

/-- Embedding of `AdiI2CWriteHandler` (I2cFunctions.c lines 57-81).
The data handed to the bus is the `numBytes` bytes of `USBBuffer` starting
at the parser's returned index (`bufIndex = USBBuffer + index`); `busWrite`
is the status oracle for `CyU3PI2cTransmitBytes`, a function of the
preamble, that data, the byte count and the retry count. On a non-success
bus status the handler logs at source line 78 and returns the status. -/
def AdiI2CWriteHandler (ep0Status : Nat) (usb : Nat → Nat) (indexInit retry : Nat)
    (busWrite : CyU3PI2cPreamble → List Nat → Nat → Nat → Nat) : WriteResult :=
  if ep0Status ≠ CY_U3P_SUCCESS then
    { status := ep0Status, busCall := none, logged := none }
  else
    let p := ParseUSBBuffer usb indexInit
    let data := (List.range p.numBytes).map (fun i => usb (p.index + i))
    let st := busWrite p.preamble data p.numBytes retry
    if st ≠ CY_U3P_SUCCESS then
      { status := st, busCall := some (p.preamble, p.index, data, p.numBytes, retry),
        logged := some (78, st) }
    else
      { status := st, busCall := some (p.preamble, p.index, data, p.numBytes, retry),
        logged := none }

/-- Model of `CyU3PI2cConfig_t` as filled in by `AdiI2CInit`. -/
structure CyU3PI2cConfig where
  bitRate : Nat
  busTimeout : Nat
  dmaTimeout : Nat
  isDma : Bool
deriving DecidableEq, Repr

/-- Result of `AdiI2CInit`. `logged` records an `AdiLogError` call as
(source line, error code); `configApplied` is the configuration passed to
`CyU3PI2cSetConfig` if that call was reached; `savedBitRate` is the value
written to `FX3State.I2CBitRate` if that assignment was reached. -/
structure InitResult where
  status : Nat
  logged : Option (Nat × Nat)
  configApplied : Option CyU3PI2cConfig
  savedBitRate : Option Nat
deriving DecidableEq, Repr

/-- The bit-rate filter of `AdiI2CInit` (I2cFunctions.c lines 88-93):
values below 100000 are raised to 100000, then values above 1000000 are
lowered to 1000000. -/
def filterBitRate (bitRate : Nat) : Nat :=
  let r := if bitRate < 100000 then 100000 else bitRate
  if r > 1000000 then 1000000 else r

/-- Embedding of `AdiI2CInit` (I2cFunctions.c lines 83-119).
`initStatus` is the status oracle for `CyU3PI2cInit`; `setConfig` is the
status oracle for `CyU3PI2cSetConfig`, a function of the configuration
passed. On `CyU3PI2cInit` failure the source logs at line 102 and returns;
otherwise it applies the configuration, unconditionally saves the filtered
bit rate into `FX3State.I2CBitRate`, and returns the `CyU3PI2cSetConfig`
status. -/
def AdiI2CInit (bitRate : Nat) (isDMA : Bool) (initStatus : Nat)
    (setConfig : CyU3PI2cConfig → Nat) : InitResult :=
  let rate := filterBitRate bitRate
  if initStatus ≠ CY_U3P_SUCCESS then
    { status := initStatus, logged := some (102, initStatus),
      configApplied := none, savedBitRate := none }
  else
    let cfg : CyU3PI2cConfig :=
      { bitRate := rate, busTimeout := 0xFFFFFFFF, dmaTimeout := 0xFFFF, isDma := isDMA }
    let st := setConfig cfg
    { status := st, logged := none, configApplied := some cfg, savedBitRate := some rate }

/-- Modelled from the spec: the host-side encoder for the incoming wire
format is not part of src (the spec notes preambles only flow host→device,
so the core needs no encoder); it is defined from the spec's wire-layout
table: `transferLength` little-endian at offset 0, `timeoutTicks` at
offset 4, `preamble.length` at offset 8, `controlMask` at offsets 9..10,
address bytes from offset 11, zero elsewhere. -/
def encodeRequest (transferLength timeoutTicks plen ctrlMask : Nat)
    (addr : List Nat) : Nat → Nat :=
  fun n =>
    if n < 4 then transferLength / 2 ^ (8 * n) % 256
    else if n < 8 then timeoutTicks / 2 ^ (8 * (n - 4)) % 256
    else if n = 8 then plen
    else if n = 9 then ctrlMask % 256
    else if n = 10 then ctrlMask / 256 % 256
    else if n < 11 + plen then addr.getD (n - 11) 0
    else 0

/-- The round-trip example header of the spec: transferLength 16,
timeoutTicks 1000, preamble length 2, control mask 1, address bytes
[0x50, 0x00], encoded into the wire layout. -/
def wireRoundTrip : Nat → Nat := encodeRequest 16 1000 2 1 [0x50, 0x00]

/-- A `USBBuffer` content whose preamble length byte is 255, far beyond the
8-byte capacity of the preamble address buffer; transfer length 4. -/
def wireOversizedPreamble : Nat → Nat :=
  fun n => if n = 0 then 4 else if n = 8 then 255 else 0

/-- A `USBBuffer` content after a 5-byte (truncated) control transfer:
the received bytes are offsets 0..4; byte 8 is stale data (value 1) left
from an earlier transfer. -/
def wireTruncA : Nat → Nat :=
  fun n => if n = 0 then 2 else if n = 8 then 1 else 0

/-- The same 5 received bytes as `wireTruncA`, with different stale data at
offset 8 (value 2). -/
def wireTruncB : Nat → Nat :=
  fun n => if n = 0 then 2 else if n = 8 then 2 else 0

/-- A write request declaring transferLength 8192 with a 1-byte preamble:
its inline data window [12, 12 + 8192) overruns the 4096-byte control
buffer. -/
def wireOversizedWrite : Nat → Nat :=
  fun n =>
    if n = 1 then 0x20 else if n = 8 then 1 else if n = 11 then 0x50 else 0

/-- A zero-preamble-length write request: transferLength 1, byte 5 (inside
the timeout field) holds 1. -/
def wireTimeoutA : Nat → Nat :=
  fun n => if n = 0 then 1 else if n = 5 then 1 else 0

/-- Identical to `wireTimeoutA` except byte 5 (inside the timeout field)
holds 2. -/
def wireTimeoutB : Nat → Nat := Function.update wireTimeoutA 5 2

/-- A bus-write status oracle that echoes the first transmitted data byte,
making the returned status sensitive to the exact bytes handed to the bus. -/
def busEchoFirstByte : CyU3PI2cPreamble → List Nat → Nat → Nat → Nat :=
  fun _ data _ _ => data.headD 0

/-- A bus-read status oracle that always succeeds. -/
def busReadOk : CyU3PI2cPreamble → Nat → Nat → Nat :=
  fun _ _ _ => CY_U3P_SUCCESS

/-- A bus-write status oracle that always succeeds. -/
def busWriteOk : CyU3PI2cPreamble → List Nat → Nat → Nat → Nat :=
  fun _ _ _ _ => CY_U3P_SUCCESS

/-! ## Helper lemmas -/

theorem loopFinalIndex_eq (plen indexInit : Nat) :
    loopFinalIndex plen indexInit = if plen = 0 then indexInit else 10 + plen := by
  cases plen with
  | zero => rfl
  | succ n =>
    have h : loopFinalIndex (n + 1) indexInit = 11 + n := by
      simp [loopFinalIndex, List.range_succ]
    simp [h]
    omega

theorem ParseUSBBuffer_index (usb : Nat → Nat) (indexInit : Nat) :
    (ParseUSBBuffer usb indexInit).index =
      if usb 8 = 0 then indexInit + 1 else 11 + usb 8 := by
  simp only [ParseUSBBuffer, loopFinalIndex_eq]
  split <;> omega

/-! ## Claims -/

/-- C5: encoding a RequestHeader with transferLength 16, timeoutTicks 1000,
preamble length 2, controlMask 1, addressBytes [0x50, 0x00] into the
little-endian wire layout and parsing it back reproduces every field
exactly and returns dataOffset 13. -/
theorem claim_C5_roundTrip :
    (ParseUSBBuffer wireRoundTrip 0).numBytes = 16 ∧
    (ParseUSBBuffer wireRoundTrip 0).timeout = 1000 ∧
    (ParseUSBBuffer wireRoundTrip 0).preamble.length = 2 ∧
    (ParseUSBBuffer wireRoundTrip 0).preamble.ctrlMask = 1 ∧
    (ParseUSBBuffer wireRoundTrip 0).preamble.buffer = [0x50, 0x00] ∧
    (ParseUSBBuffer wireRoundTrip 0).index = 13 := by
  decide

/-- C10: for any payload with preamble length byte at least 1, the parser
returns dataOffset 11 + length regardless of the initial (uninitialized)
value of its local index variable; for length 0 it returns that
uninitialized value plus one, so two different garbage values yield two
different results. -/
theorem claim_C10_dataOffset :
    (∀ usb indexInit, 1 ≤ usb 8 →
      (ParseUSBBuffer usb indexInit).index = 11 + usb 8) ∧
    (∀ usb indexInit, usb 8 = 0 →
      (ParseUSBBuffer usb indexInit).index = indexInit + 1) ∧
    (ParseUSBBuffer (fun _ => 0) 0).index ≠ (ParseUSBBuffer (fun _ => 0) 7).index := by
  refine ⟨fun usb indexInit h => ?_, fun usb indexInit h => ?_, by decide⟩
  · rw [ParseUSBBuffer_index]
    split <;> omega
  · rw [ParseUSBBuffer_index]
    simp [h]

/-- Witness for C10 at concrete inputs: the round-trip wire (length byte 2)
parses to offset 13 whatever the garbage initial index was, and a
zero-length-preamble payload returns garbage 41 plus one. -/
theorem claim_C10_dataOffset_witness :
    (ParseUSBBuffer wireRoundTrip 3).index = 11 + wireRoundTrip 8 ∧
    (ParseUSBBuffer (fun _ => 0) 41).index = 42 :=
  ⟨claim_C10_dataOffset.1 wireRoundTrip 3 (by decide),
   claim_C10_dataOffset.2.1 (fun _ => 0) 41 rfl⟩

/-- C7: the bit-rate filter of the bus configuration clamps every requested
rate into [100000, 1000000], the clamped rate is both the rate applied to
the I2C block and the rate persisted to board state, and the three spec
examples hold: 50000 becomes 100000, 2000000 becomes 1000000, 400000 is
unchanged. -/
theorem claim_C7_bitRateClamp :
    (∀ r, 100000 ≤ filterBitRate r ∧ filterBitRate r ≤ 1000000) ∧
    (∀ r dma setConfig,
      (AdiI2CInit r dma CY_U3P_SUCCESS setConfig).configApplied =
        some { bitRate := filterBitRate r, busTimeout := 0xFFFFFFFF,
               dmaTimeout := 0xFFFF, isDma := dma } ∧
      (AdiI2CInit r dma CY_U3P_SUCCESS setConfig).savedBitRate =
        some (filterBitRate r)) ∧
    filterBitRate 50000 = 100000 ∧
    filterBitRate 2000000 = 1000000 ∧
    filterBitRate 400000 = 400000 := by
  refine ⟨fun r => ?_, fun r dma setConfig => ?_, by decide, by decide, by decide⟩
  · simp only [filterBitRate]
    split <;> split <;> omega
  · simp [AdiI2CInit, CY_U3P_SUCCESS]

set_option maxRecDepth 8192 in
/-- C1: refuted on the source. For a payload whose preamble length byte is
255 — far beyond the 8-byte capacity of the preamble address buffer — the
parser has no failure path: it copies all 255 bytes (the model's preamble
buffer holds 255 entries, i.e. the fixed C array is overflowed) and the
read handler still issues the bus transaction and returns success. -/
theorem claim_C1_counterexample :
    PREAMBLE_CAPACITY < (ParseUSBBuffer wireOversizedPreamble 0).preamble.length ∧
    PREAMBLE_CAPACITY < (ParseUSBBuffer wireOversizedPreamble 0).preamble.buffer.length ∧
    (AdiI2CReadHandler CY_U3P_SUCCESS wireOversizedPreamble 0 0 busReadOk).busCall.isSome = true ∧
    (AdiI2CReadHandler CY_U3P_SUCCESS wireOversizedPreamble 0 0 busReadOk).status = CY_U3P_SUCCESS := by
  decide

/-- C2: refuted on the source. A truncated 5-byte request leaves bytes 5..
of the global buffer stale; two stale contents that agree on all 5 received
bytes (offsets 0..4) but differ at offset 8 drive the read handler to two
different bus transactions, both issued with success status — the parser
reads past the declared length and nothing like a TruncatedRequest
rejection exists in the code. -/
theorem claim_C2_counterexample :
    (wireTruncA 0 = wireTruncB 0 ∧ wireTruncA 1 = wireTruncB 1 ∧
     wireTruncA 2 = wireTruncB 2 ∧ wireTruncA 3 = wireTruncB 3 ∧
     wireTruncA 4 = wireTruncB 4) ∧
    (AdiI2CReadHandler CY_U3P_SUCCESS wireTruncA 0 0 busReadOk).busCall ≠
      (AdiI2CReadHandler CY_U3P_SUCCESS wireTruncB 0 0 busReadOk).busCall ∧
    (AdiI2CReadHandler CY_U3P_SUCCESS wireTruncA 0 0 busReadOk).status = CY_U3P_SUCCESS ∧
    (AdiI2CReadHandler CY_U3P_SUCCESS wireTruncB 0 0 busReadOk).status = CY_U3P_SUCCESS := by
  decide

/-- C3: refuted on the source. A write request declaring transferLength
8192 with a 1-byte preamble has its data window end at 12 + 8192, past the
4096-byte control buffer, yet the write handler issues the bus write
transaction (no rejection happens) and returns success. -/
theorem claim_C3_counterexample :
    USB_BUFFER_CAPACITY <
      (ParseUSBBuffer wireOversizedWrite 0).index + (ParseUSBBuffer wireOversizedWrite 0).numBytes ∧
    (AdiI2CWriteHandler CY_U3P_SUCCESS wireOversizedWrite 0 0 busWriteOk).busCall.isSome = true ∧
    (AdiI2CWriteHandler CY_U3P_SUCCESS wireOversizedWrite 0 0 busWriteOk).status = CY_U3P_SUCCESS := by
  decide

/-- C6 counterexample: with bus initialization succeeding and the
subsequent CyU3PI2cSetConfig call failing (status 1), the configuration as
a whole fails — the handler returns a non-success status — yet the bit rate
is still persisted into board state, refuting "persists ... exactly when
configuration succeeds". -/
theorem claim_C6_counterexample :
    (AdiI2CInit 400000 false CY_U3P_SUCCESS (fun _ => 1)).status ≠ CY_U3P_SUCCESS ∧
    (AdiI2CInit 400000 false CY_U3P_SUCCESS (fun _ => 1)).savedBitRate = some 400000 := by
  decide

/-- C6 (amended): the bit rate is persisted into shared board state exactly
when the bus initialization step succeeds — even if the subsequent
set-config step fails, its status being returned; when initialization
fails, the handler logs the error (line tag 102 with the error code),
returns that failure, applies no configuration and persists no bit rate,
with no internal retry (the failure path performs no further bus call). -/
theorem claim_C6_initFailure (bitRate : Nat) (isDMA : Bool) (initStatus : Nat)
    (setConfig : CyU3PI2cConfig → Nat) :
    ((AdiI2CInit bitRate isDMA initStatus setConfig).savedBitRate.isSome ↔
      initStatus = CY_U3P_SUCCESS) ∧
    (initStatus ≠ CY_U3P_SUCCESS →
      AdiI2CInit bitRate isDMA initStatus setConfig =
        { status := initStatus, logged := some (102, initStatus),
          configApplied := none, savedBitRate := none }) ∧
    (initStatus = CY_U3P_SUCCESS →
      (AdiI2CInit bitRate isDMA initStatus setConfig).savedBitRate =
        some (filterBitRate bitRate) ∧
      (AdiI2CInit bitRate isDMA initStatus setConfig).logged = none) := by
  unfold AdiI2CInit
  by_cases h : initStatus = CY_U3P_SUCCESS <;> simp [h]

/-- Witness for C6 (amended) at concrete inputs: an initialization failure
with status 7 yields the logged-and-rejected result with nothing persisted. -/
theorem claim_C6_initFailure_witness :
    AdiI2CInit 400000 false 7 (fun _ => 0) =
      { status := 7, logged := some (102, 7), configApplied := none, savedBitRate := none } :=
  (claim_C6_initFailure 400000 false 7 (fun _ => 0)).2.1 (by decide)

/-- C8: whenever the bus write transaction returns a non-success status,
the write handler logs the failure with its location tag (source line 78)
and the error code, and returns that same status to the caller. -/
theorem claim_C8_writeErrorLogged (usb : Nat → Nat) (indexInit retry : Nat)
    (busWrite : CyU3PI2cPreamble → List Nat → Nat → Nat → Nat) (st : Nat)
    (hst : busWrite (ParseUSBBuffer usb indexInit).preamble
        ((List.range (ParseUSBBuffer usb indexInit).numBytes).map
          (fun i => usb ((ParseUSBBuffer usb indexInit).index + i)))
        (ParseUSBBuffer usb indexInit).numBytes retry = st)
    (hne : st ≠ CY_U3P_SUCCESS) :
    (AdiI2CWriteHandler CY_U3P_SUCCESS usb indexInit retry busWrite).logged =
      some (78, st) ∧
    (AdiI2CWriteHandler CY_U3P_SUCCESS usb indexInit retry busWrite).status = st := by
  have hne0 : ¬(st = 0) := by simpa [CY_U3P_SUCCESS] using hne
  unfold AdiI2CWriteHandler
  simp [hst, hne0, CY_U3P_SUCCESS]

/-- Witness for C8 at concrete inputs: a constantly failing bus write
(status 5) on the round-trip wire is logged as (78, 5) and propagated. -/
theorem claim_C8_writeErrorLogged_witness :
    (AdiI2CWriteHandler CY_U3P_SUCCESS wireRoundTrip 0 0 (fun _ _ _ _ => 5)).logged =
      some (78, 5) ∧
    (AdiI2CWriteHandler CY_U3P_SUCCESS wireRoundTrip 0 0 (fun _ _ _ _ => 5)).status = 5 :=
  claim_C8_writeErrorLogged wireRoundTrip 0 0 (fun _ _ _ _ => 5) 5 rfl (by decide)

/-- C4: the read handler stages data for bulk upload exactly when both the
control-endpoint read and the bus read succeed; the staged descriptor marks
exactly the parsed numBytes as valid count, starting at offset 0 of the
staging buffer (never the buffer's capacity); on a control-read failure or
a bus-read failure the handler returns that error status with nothing
staged. -/
theorem claim_C4_readStaging (ep0Status : Nat) (usb : Nat → Nat)
    (indexInit retry : Nat) (busRead : CyU3PI2cPreamble → Nat → Nat → Nat) :
    ((AdiI2CReadHandler ep0Status usb indexInit retry busRead).staged.isSome ↔
      ep0Status = CY_U3P_SUCCESS ∧
      busRead (ParseUSBBuffer usb indexInit).preamble
        (ParseUSBBuffer usb indexInit).numBytes retry = CY_U3P_SUCCESS) ∧
    (ep0Status = CY_U3P_SUCCESS →
      busRead (ParseUSBBuffer usb indexInit).preamble
        (ParseUSBBuffer usb indexInit).numBytes retry = CY_U3P_SUCCESS →
      (AdiI2CReadHandler ep0Status usb indexInit retry busRead).staged =
        some (0, 4096, (ParseUSBBuffer usb indexInit).numBytes) ∧
      (AdiI2CReadHandler ep0Status usb indexInit retry busRead).status =
        CY_U3P_SUCCESS) ∧
    (ep0Status ≠ CY_U3P_SUCCESS →
      AdiI2CReadHandler ep0Status usb indexInit retry busRead =
        { status := ep0Status, busCall := none, staged := none }) ∧
    (ep0Status = CY_U3P_SUCCESS →
      busRead (ParseUSBBuffer usb indexInit).preamble
        (ParseUSBBuffer usb indexInit).numBytes retry ≠ CY_U3P_SUCCESS →
      (AdiI2CReadHandler ep0Status usb indexInit retry busRead).status =
        busRead (ParseUSBBuffer usb indexInit).preamble
          (ParseUSBBuffer usb indexInit).numBytes retry ∧
      (AdiI2CReadHandler ep0Status usb indexInit retry busRead).staged = none) := by
  unfold AdiI2CReadHandler
  by_cases h : ep0Status = CY_U3P_SUCCESS
  · by_cases hb : busRead (ParseUSBBuffer usb indexInit).preamble
        (ParseUSBBuffer usb indexInit).numBytes retry = CY_U3P_SUCCESS <;>
      simp [h, hb]
  · simp [h]

/-- Witness for C4 at concrete inputs: with a succeeding control read and a
succeeding bus read, the spec's example request for 10 bytes stages exactly
10 valid bytes at offset 0, never the 4096-byte capacity. -/
theorem claim_C4_readStaging_witness :
    (AdiI2CReadHandler CY_U3P_SUCCESS (fun n => if n = 0 then 10 else 0) 0 0 busReadOk).staged =
      some (0, 4096, 10) ∧
    (AdiI2CReadHandler CY_U3P_SUCCESS (fun n => if n = 0 then 10 else 0) 0 0 busReadOk).status =
      CY_U3P_SUCCESS :=
  (claim_C4_readStaging CY_U3P_SUCCESS (fun n => if n = 0 then 10 else 0) 0 0 busReadOk).2.1
    rfl rfl

theorem ParseUSBBuffer_agree (usbA usbB : Nat → Nat) (indexInit : Nat)
    (hagree : ∀ n, n < 4 ∨ 7 < n → usbA n = usbB n) :
    (ParseUSBBuffer usbA indexInit).numBytes = (ParseUSBBuffer usbB indexInit).numBytes ∧
    (ParseUSBBuffer usbA indexInit).preamble = (ParseUSBBuffer usbB indexInit).preamble ∧
    (ParseUSBBuffer usbA indexInit).index = (ParseUSBBuffer usbB indexInit).index := by
  have h0 := hagree 0 (by omega)
  have h1 := hagree 1 (by omega)
  have h2 := hagree 2 (by omega)
  have h3 := hagree 3 (by omega)
  have h8 := hagree 8 (by omega)
  have h9 := hagree 9 (by omega)
  have h10 := hagree 10 (by omega)
  refine ⟨?_, ?_, ?_⟩
  · simp [ParseUSBBuffer, le32at, h0, h1, h2, h3]
  · simp only [ParseUSBBuffer, CyU3PI2cPreamble.mk.injEq]
    refine ⟨h8, by rw [h9, h10], ?_⟩
    rw [h8]
    exact List.map_congr_left fun i _ => hagree (11 + i) (by omega)
  · simp only [ParseUSBBuffer, loopFinalIndex]
    rw [h8]

/-- C9 counterexample: two control payloads that differ only at offset 5
(inside the timeout field; the second wire is by definition the first with
byte 5 changed from 1 to 2) drive the write handler to different bus
transactions and different results when the preamble length byte is 0: the
parser's data offset then comes from the uninitialized index local (here
holding 4), so the transmitted data window lands on the timeout bytes. -/
theorem claim_C9_counterexample :
    (AdiI2CWriteHandler CY_U3P_SUCCESS wireTimeoutA 4 0 busEchoFirstByte).status = 1 ∧
    (AdiI2CWriteHandler CY_U3P_SUCCESS wireTimeoutB 4 0 busEchoFirstByte).status = 2 := by
  decide

/-- C9 (amended): for two control payloads that agree everywhere outside
bytes 4..7 (the timeoutTicks field) and the same uninitialized initial
index value, the read handler issues identical bus transactions and returns
identical results unconditionally, and the write handler does so provided
the preamble length byte is at least 1 (for length 0 the write data offset
is derived from the uninitialized local and can overlap bytes 4..7). -/
theorem claim_C9_timeoutIrrelevant (ep0Status : Nat) (usbA usbB : Nat → Nat)
    (indexInit retry : Nat)
    (busRead : CyU3PI2cPreamble → Nat → Nat → Nat)
    (busWrite : CyU3PI2cPreamble → List Nat → Nat → Nat → Nat)
    (hagree : ∀ n, n < 4 ∨ 7 < n → usbA n = usbB n) :
    AdiI2CReadHandler ep0Status usbA indexInit retry busRead =
      AdiI2CReadHandler ep0Status usbB indexInit retry busRead ∧
    (1 ≤ usbA 8 →
      AdiI2CWriteHandler ep0Status usbA indexInit retry busWrite =
        AdiI2CWriteHandler ep0Status usbB indexInit retry busWrite) := by
  obtain ⟨hnum, hpre, hidx⟩ := ParseUSBBuffer_agree usbA usbB indexInit hagree
  constructor
  · simp only [AdiI2CReadHandler]
    rw [hnum, hpre]
  · intro hlen
    have hA : (ParseUSBBuffer usbA indexInit).index = 11 + usbA 8 := by
      rw [ParseUSBBuffer_index]
      split <;> omega
    have hdata :
        List.map (fun i => usbA ((ParseUSBBuffer usbB indexInit).index + i))
          (List.range (ParseUSBBuffer usbB indexInit).numBytes) =
        List.map (fun i => usbB ((ParseUSBBuffer usbB indexInit).index + i))
          (List.range (ParseUSBBuffer usbB indexInit).numBytes) := by
      refine List.map_congr_left fun i _ => hagree _ ?_
      rw [← hidx, hA]
      omega
    simp only [AdiI2CWriteHandler]
    rw [hnum, hpre, hidx, hdata]

/-- Witness for C9 (amended) at concrete inputs: changing byte 4 of the
round-trip wire (preamble length 2) from 232 to 9 changes neither handler's
result. -/
theorem claim_C9_timeoutIrrelevant_witness :
    AdiI2CReadHandler CY_U3P_SUCCESS wireRoundTrip 0 0 busReadOk =
      AdiI2CReadHandler CY_U3P_SUCCESS (Function.update wireRoundTrip 4 9) 0 0 busReadOk ∧
    AdiI2CWriteHandler CY_U3P_SUCCESS wireRoundTrip 0 0 busWriteOk =
      AdiI2CWriteHandler CY_U3P_SUCCESS (Function.update wireRoundTrip 4 9) 0 0 busWriteOk := by
  have h := claim_C9_timeoutIrrelevant CY_U3P_SUCCESS wireRoundTrip
    (Function.update wireRoundTrip 4 9) 0 0 busReadOk busWriteOk
    (fun n hn => by rw [Function.update_noteq (by omega)])
  exact ⟨h.1, h.2 (by decide)⟩

end I2cFunctions
